import Mathlib

/-! Verification of the blog view layer (`blogicum/blog/views.py`).

The embedding models the Django ORM shallowly: a database state is a list of
posts, comments and categories; querysets are lists; `annotate(Count(...))`
is a map pairing each post with a comment count; `filter` is `List.filter`;
`order_by` is a stable sort (`List.insertionSort`) by a key.

The repository ships only `views.py`; `models.py` and `forms.py` are absent,
so the model fields follow the spec's glossary (post: publication state,
date, author, category, location; category: published flag and slug;
comment: author and post) and `Post._meta.ordering` is an abstract sort key
parameter `ordKey`.  Form validation is external per the spec, so forms are
modelled by a validity flag plus the data they would save.
-/

/-- Model of the `Category` model: a published flag and a slug.
Modelled from the spec: `models.py` is not in the repository; the glossary
says a category is a "grouping of posts, itself togglable
published/unpublished" and `views.py` accesses `slug` and `is_published`. -/
structure Category where
  id : Nat
  slug : String
  is_published : Bool
deriving DecidableEq, Repr

/-- Model of the `Post` model.  Modelled from the spec: `models.py` is not in
the repository; the glossary says a post has "publication state, date,
author, category, location", and `views.py` accesses `is_published`,
`pub_date`, `author`, `category.is_published`.  The category is stored
inline (the `select_related` join), the author is a user id, and the
publication date is an integer timestamp. -/
structure Post where
  id : Nat
  author : Nat
  category : Category
  location : Nat
  pub_date : Int
  is_published : Bool
  text : String
deriving DecidableEq, Repr

/-- Model of the `Comment` model.  Modelled from the spec: `models.py` is not
in the repository; the glossary says a comment is "a reply to a post, owned
by its author", and `views.py` accesses `author`, `post` and saves form
text. -/
structure Comment where
  id : Nat
  author : Nat
  post : Nat
  text : String
deriving DecidableEq, Repr

/-- A database state: the stored posts, comments and categories. -/
structure DB where
  posts : List Post
  comments : List Comment
  categories : List Category
deriving DecidableEq, Repr

/-- A post together with its annotated `comment_count`
(`annotate(comment_count=Count('comments'))`). -/
structure AnnotatedPost where
  post : Post
  comment_count : Nat
deriving DecidableEq, Repr

/-- The published-only filter of `get_annotated_posts`
(views.py lines 38-42): `is_published=True, category__is_published=True,
pub_date__lte=timezone.now()`. -/
def publishedFilter (now : Int) (p : Post) : Bool :=
  p.is_published && p.category.is_published && decide (p.pub_date ≤ now)

/-- The annotation step: pair a post with the number of stored comments
whose `post` foreign key points at it. -/
def annotate (comments : List Comment) (p : Post) : AnnotatedPost :=
  ⟨p, (comments.filter (fun c => c.post == p.id)).length⟩

/-- The `get_annotated_posts` query builder (views.py lines 22-44): annotate
each post of the input queryset with its comment count, filter to published
posts when `published_only` is set, and order by the model ordering
(`order_by(*Post._meta.ordering)`), modelled as a stable sort by the
abstract key `ordKey` since `models.py` is not in the repository. -/
def get_annotated_posts (comments : List Comment) (ordKey : Post → Int)
    (now : Int) (published_only : Bool) (queryset : List Post) :
    List AnnotatedPost :=
  let qs := queryset.map (annotate comments)
  let qs := if published_only then qs.filter (fun a => publishedFilter now a.post) else qs
  qs.insertionSort (fun a b => ordKey a.post ≤ ordKey b.post)

/-- The visibility condition of `PostDetailView.get_object`
(views.py lines 69-71): `post.is_published and post.category.is_published
and post.pub_date <= timezone.now()`. -/
def detailVisible (now : Int) (p : Post) : Bool :=
  p.is_published && p.category.is_published && decide (p.pub_date ≤ now)

/-- Spec-side definition, following the spec's words only: a post is
published when its flag is set and its publication date is not in the
future. -/
def specPostPublished (now : Int) (p : Post) : Bool :=
  p.is_published && decide (p.pub_date ≤ now)

/-- Spec-side definition, following the spec's words only: a category is
published when its flag is set. -/
def specCategoryPublished (c : Category) : Bool :=
  c.is_published

/-- Look a post up by primary key (`get_object_or_404(Post, id=...)` /
`DetailView.get_object`). -/
def findPost (db : DB) (pid : Nat) : Option Post :=
  db.posts.find? (fun p => p.id == pid)

/-- Look a comment up by primary key. -/
def findComment (db : DB) (cid : Nat) : Option Comment :=
  db.comments.find? (fun c => c.id == cid)

/-- Targets of `redirect` / `reverse_lazy` used by the views. -/
inductive Url where
  | login : Url
  | index : Url
  | postDetail (post_id : Nat) : Url
  | profile (username : Nat) : Url
deriving DecidableEq, Repr

/-- Responses a view can produce: a redirect, a rendered template, an HTTP
404 (`Http404` / `get_object_or_404`), an HTTP 403 (`PermissionDenied`), or
a URL-reversal error (reversing `blog:post_detail` with a missing
`post_id`). -/
inductive Response where
  | redirect (url : Url) : Response
  | render (template : String) : Response
  | notFound : Response
  | forbidden : Response
  | urlError : Response
deriving DecidableEq, Repr

/-- Whether a response is a redirect. -/
def Response.isRedirect : Response → Bool
  | .redirect _ => true
  | _ => false

/-- `PostDetailView.get_object` (views.py lines 61-75): fetch the post by
pk (404 when absent); an authenticated author gets their own post
unconditionally; anyone else gets it only when it passes the visibility
condition, otherwise `Http404`.  `none` models the 404. -/
def postDetailGetObject (db : DB) (viewer : Option Nat) (now : Int)
    (pid : Nat) : Option Post :=
  match findPost db pid with
  | none => none
  | some post =>
    if viewer = some post.author then some post
    else if detailVisible now post then some post
    else none

/-- The comment list placed in `PostDetailView`'s context (views.py lines
80-82): all stored comments of the displayed post, unpaginated. -/
def postDetailComments (db : DB) (pid : Nat) : List Comment :=
  db.comments.filter (fun c => c.post == pid)

/-- Number of pages of Django's `Paginator`: `ceil(count / per_page)`, at
least 1 because an empty first page is allowed. -/
def numPages (per_page count : Nat) : Nat :=
  max 1 ((count + per_page - 1) / per_page)

/-- Django's `Paginator.get_page`: an unparsable or absent page number
gives page 1, an out-of-range one (below 1 or above `num_pages`) gives the
last page; the page holds the corresponding `per_page`-sized slice. -/
def getPage (per_page : Nat) (l : List α) (page_number : Option Nat) :
    List α :=
  let np := numPages per_page l.length
  let pn := match page_number with
    | none => 1
    | some k => if k < 1 || np < k then np else k
  (l.drop ((pn - 1) * per_page)).take per_page

/-- Django's `Paginator.page` as used by `ListView.paginate_queryset`: an
absent page number gives page 1, an out-of-range one raises `Http404`
(modelled by `none`). -/
def listViewPage (per_page : Nat) (l : List α) (page_number : Option Nat) :
    Option (List α) :=
  let np := numPages per_page l.length
  let pn := match page_number with
    | none => 1
    | some k => k
  if pn < 1 || np < pn then none
  else some ((l.drop ((pn - 1) * per_page)).take per_page)

/-- `PostsListView` (views.py lines 47-53): queryset
`get_annotated_posts()` (published only, over all posts), paginated by 10;
`none` models the 404 raised on an out-of-range page number. -/
def postsListView (db : DB) (ordKey : Post → Int) (now : Int)
    (page_number : Option Nat) : Option (List AnnotatedPost) :=
  listViewPage 10 (get_annotated_posts db.comments ordKey now true db.posts)
    page_number

/-- `category_posts` (views.py lines 86-109): 404 unless a category with
the given slug exists and is published; then the published posts of that
category, annotated and ordered by the query builder, paginated by 10 with
`Paginator.get_page`. -/
def category_posts (db : DB) (ordKey : Post → Int) (now : Int)
    (slug : String) (page_number : Option Nat) :
    Option (List AnnotatedPost) :=
  match db.categories.find? (fun c => c.slug == slug && c.is_published) with
  | none => none
  | some cat =>
    let posts := db.posts.filter (fun p => p.category.id == cat.id)
    some (getPage 10 (get_annotated_posts db.comments ordKey now true posts)
      page_number)

/-- The queryset built by `ProfileView.get_context_data` (views.py lines
121-134): when the viewer is the authenticated profile owner, all of the
owner's posts through the query builder with `published_only=False`;
otherwise (guests and other users) only published ones.  An anonymous
viewer is `none`, so `viewer = some owner` is the code's
`current_user.is_authenticated and current_user == self.object`. -/
def profilePosts (db : DB) (ordKey : Post → Int) (now : Int)
    (owner : Nat) (viewer : Option Nat) : List AnnotatedPost :=
  if viewer = some owner then
    get_annotated_posts db.comments ordKey now false
      (db.posts.filter (fun p => p.author == owner))
  else
    get_annotated_posts db.comments ordKey now true
      (db.posts.filter (fun p => p.author == owner))

/-- The `page_obj` built by `ProfileView.get_context_data` (views.py lines
136-140): the profile queryset paginated by 10 with `Paginator.get_page`. -/
def profilePageObj (db : DB) (ordKey : Post → Int) (now : Int)
    (owner : Nat) (viewer : Option Nat) (page_number : Option Nat) :
    List AnnotatedPost :=
  getPage 10 (profilePosts db ordKey now owner viewer) page_number

/-- `EditMixin.test_func` (views.py lines 188-190): the requesting user
must be the object's author. -/
def editMixinTest (user : Nat) (author : Nat) : Bool :=
  user == author

/-- The denial condition of `CommentUpdateView.dispatch` (views.py lines
235-239): `PermissionDenied` when `comment.author != request.user`. -/
def commentUpdateDenies (user : Nat) (author : Nat) : Bool :=
  author != user

/-- `PostCreateView` (views.py lines 161-184) on a POST request: requires
login (`LoginRequiredMixin` redirects anonymous users to the login page);
on a valid form the instance's author is set to the requesting user, a
missing publication date defaults to now, the post is saved and the
response redirects to the requester's profile; on an invalid form the form
template is re-rendered and nothing is saved.  `inst` is the unsaved form
instance and `pubDateSet` whether the form supplied a publication date. -/
def postCreateView (db : DB) (viewer : Option Nat) (now : Int)
    (formValid : Bool) (inst : Post) (pubDateSet : Bool) : DB × Response :=
  match viewer with
  | none => (db, .redirect .login)
  | some u =>
    if formValid then
      let inst := { inst with author := u }
      let inst := if pubDateSet then inst else { inst with pub_date := now }
      ({ db with posts := db.posts ++ [inst] }, .redirect (.profile u))
    else (db, .render "blog/create.html")

/-- `PostUpdateView` (views.py lines 196-201, via `EditMixin`) on a POST
request: `EditMixin.handle_no_permission` redirects to the post's detail
page both for anonymous users and for authenticated non-authors; a missing
post is a 404; for the author a valid form saves the edit (`g` is the
form's effect on the stored post) and redirects to `blog:index`, an
invalid form re-renders the template. -/
def postUpdateView (db : DB) (viewer : Option Nat) (pid : Nat)
    (formValid : Bool) (g : Post → Post) : DB × Response :=
  match viewer with
  | none => (db, .redirect (.postDetail pid))
  | some u =>
    match findPost db pid with
    | none => (db, .notFound)
    | some post =>
      if editMixinTest u post.author then
        if formValid then
          ({ db with
              posts := db.posts.map (fun p => if p.id == pid then g p else p) },
            .redirect .index)
        else (db, .render "blog/create.html")
      else (db, .redirect (.postDetail pid))

/-- `PostDeleteView` (views.py lines 204-213, via `EditMixin`) on a POST
request: same access control as `PostUpdateView`; for the author the post
is deleted (its comments cascade away with it) and the response redirects
to `blog:index`. -/
def postDeleteView (db : DB) (viewer : Option Nat) (pid : Nat) :
    DB × Response :=
  match viewer with
  | none => (db, .redirect (.postDetail pid))
  | some u =>
    match findPost db pid with
    | none => (db, .notFound)
    | some post =>
      if editMixinTest u post.author then
        ({ db with
            posts := db.posts.filter (fun p => !(p.id == pid)),
            comments := db.comments.filter (fun c => !(c.post == pid)) },
          .redirect .index)
      else (db, .redirect (.postDetail pid))

/-- `add_comment` (views.py lines 216-226): `@login_required` redirects
anonymous users to the login page; a missing post is a 404; otherwise a
valid form saves a comment with `author = request.user` and
`post = post_id` (`cid` is the fresh primary key, `text` the form data),
and whether or not the form was valid the response redirects to the post's
detail page. -/
def add_comment (db : DB) (viewer : Option Nat) (pid : Nat)
    (formValid : Bool) (cid : Nat) (text : String) : DB × Response :=
  match viewer with
  | none => (db, .redirect .login)
  | some u =>
    match findPost db pid with
    | none => (db, .notFound)
    | some _ =>
      if formValid then
        ({ db with comments := db.comments ++ [⟨cid, u, pid, text⟩] },
          .redirect (.postDetail pid))
      else (db, .redirect (.postDetail pid))

/-- `CommentUpdateView` (views.py lines 229-249) on a POST request:
`LoginRequiredMixin` redirects anonymous users to the login page;
`dispatch` raises `PermissionDenied` (403) when the comment's author is
not the requesting user; a missing comment is a 404; for the author a
valid form saves the edit (`g` is the form's effect) and redirects to the
comment's post's detail page, an invalid form re-renders the template. -/
def commentUpdateView (db : DB) (viewer : Option Nat) (cid : Nat)
    (formValid : Bool) (g : Comment → Comment) : DB × Response :=
  match viewer with
  | none => (db, .redirect .login)
  | some u =>
    match findComment db cid with
    | none => (db, .notFound)
    | some c =>
      if commentUpdateDenies u c.author then (db, .forbidden)
      else if formValid then
        ({ db with
            comments := db.comments.map (fun x => if x.id == cid then g x else x) },
          .redirect (.postDetail (g c).post))
      else (db, .render "blog/comment.html")

/-- `CommentDeleteView` (views.py lines 252-259, via `EditMixin`) on a
POST request: `EditMixin.handle_no_permission` redirects to
`blog:post_detail` with `self.kwargs.get('post_id')` — the URL
configuration is not in the repository, so the kwarg is the parameter
`kpid`; when it is absent the reversal fails (`urlError`).  A missing
comment is a 404; for the author the comment is deleted and the response
redirects to its post's detail page. -/
def commentDeleteView (db : DB) (viewer : Option Nat) (cid : Nat)
    (kpid : Option Nat) : DB × Response :=
  let noperm : Response := match kpid with
    | some x => .redirect (.postDetail x)
    | none => .urlError
  match viewer with
  | none => (db, noperm)
  | some u =>
    match findComment db cid with
    | none => (db, .notFound)
    | some c =>
      if editMixinTest u c.author then
        ({ db with comments := db.comments.filter (fun x => !(x.id == cid)) },
          .redirect (.postDetail c.post))
      else (db, noperm)

/-! ### Helper lemmas -/

theorem annotate_post (c : List Comment) (p : Post) :
    (annotate c p).post = p := rfl

theorem map_post_map_annotate (c : List Comment) (qs : List Post) :
    (qs.map (annotate c)).map AnnotatedPost.post = qs := by
  rw [List.map_map]
  have h : AnnotatedPost.post ∘ annotate c = id := funext fun p => rfl
  rw [h, List.map_id]

theorem get_annotated_posts_map_post (c : List Comment) (ordKey : Post → Int)
    (now : Int) (po : Bool) (qs : List Post) :
    (get_annotated_posts c ordKey now po qs).map AnnotatedPost.post
      = List.insertionSort (fun p q => ordKey p ≤ ordKey q)
          (if po then qs.filter (publishedFilter now) else qs) := by
  unfold get_annotated_posts
  rw [List.map_insertionSort (fun a b => ordKey a.post ≤ ordKey b.post)
    (fun p q => ordKey p ≤ ordKey q) AnnotatedPost.post _
    (fun a _ b _ => Iff.rfl)]
  congr 1
  have hpred : (fun a : AnnotatedPost => publishedFilter now a.post) ∘ annotate c
      = publishedFilter now := funext fun q => rfl
  cases po with
  | false => exact map_post_map_annotate c qs
  | true =>
    show ((qs.map (annotate c)).filter
        (fun a => publishedFilter now a.post)).map AnnotatedPost.post
      = qs.filter (publishedFilter now)
    rw [List.filter_map, hpred, map_post_map_annotate]

theorem mem_get_annotated_posts (c : List Comment) (ordKey : Post → Int)
    (now : Int) (po : Bool) (qs : List Post) (a : AnnotatedPost)
    (ha : a ∈ get_annotated_posts c ordKey now po qs) :
    ∃ p ∈ qs, a = annotate c p := by
  unfold get_annotated_posts at ha
  rw [List.mem_insertionSort] at ha
  have ha' : a ∈ qs.map (annotate c) := by
    cases po with
    | false => exact ha
    | true => exact List.mem_of_mem_filter ha
  obtain ⟨p, hp, rfl⟩ := List.mem_map.1 ha'
  exact ⟨p, hp, rfl⟩

theorem length_getPage (per_page : Nat) (l : List α) (pn : Option Nat) :
    (getPage per_page l pn).length ≤ per_page := by
  unfold getPage
  rw [List.length_take]
  exact min_le_left _ _

theorem getPage_eq_drop_take (per_page : Nat) (l : List α) (pn : Option Nat) :
    ∃ m, getPage per_page l pn = (l.drop m).take per_page :=
  ⟨_, rfl⟩

/-! ### Claim theorems -/

/-- C1: a post is treated as published exactly when its `is_published` flag
is set and its `pub_date` is not in the future, and a category exactly when
its `is_published` flag is set: both the query builder's published-only
filter and the post detail view's visibility check decide publicness as the
conjunction of the post rule and the category rule, and by nothing else
(both are functions of exactly those fields). -/
theorem publicness_is_flag_plus_date (now : Int) (p : Post) :
    publishedFilter now p
      = (specPostPublished now p && specCategoryPublished p.category)
    ∧ detailVisible now p
      = (specPostPublished now p && specCategoryPublished p.category) := by
  constructor <;>
    simp [publishedFilter, detailVisible, specPostPublished,
      specCategoryPublished, Bool.and_assoc, Bool.and_comm, Bool.and_left_comm]

/-- C3: the query builder annotates every returned post with
`comment_count` equal to the number of stored comments attached to that
post, returns the posts sorted by the model's default ordering key, and
contains (as a multiset) exactly the published input posts when
`published_only` is set and every input post otherwise. -/
theorem get_annotated_posts_spec (c : List Comment) (ordKey : Post → Int)
    (now : Int) (po : Bool) (qs : List Post) :
    (∀ a ∈ get_annotated_posts c ordKey now po qs,
        a.comment_count
          = (c.filter (fun x => x.post == a.post.id)).length)
    ∧ List.Sorted (fun a b : AnnotatedPost => ordKey a.post ≤ ordKey b.post)
        (get_annotated_posts c ordKey now po qs)
    ∧ (po = true →
        ((get_annotated_posts c ordKey now po qs).map AnnotatedPost.post).Perm
          (qs.filter (publishedFilter now)))
    ∧ (po = false →
        ((get_annotated_posts c ordKey now po qs).map AnnotatedPost.post).Perm
          qs) := by
  refine ⟨?_, ?_, ?_, ?_⟩
  · intro a ha
    obtain ⟨p, _, rfl⟩ := mem_get_annotated_posts c ordKey now po qs a ha
    rfl
  · haveI ht : IsTotal AnnotatedPost
        (fun a b => ordKey a.post ≤ ordKey b.post) :=
      ⟨fun a b => le_total _ _⟩
    haveI htr : IsTrans AnnotatedPost
        (fun a b => ordKey a.post ≤ ordKey b.post) :=
      ⟨fun _ _ _ hab hbc => le_trans hab hbc⟩
    unfold get_annotated_posts
    exact List.sorted_insertionSort _ _
  · intro hpo
    subst hpo
    rw [get_annotated_posts_map_post]
    exact List.perm_insertionSort _ _
  · intro hpo
    subst hpo
    rw [get_annotated_posts_map_post]
    exact List.perm_insertionSort _ _

theorem listViewPage_shape (per : Nat) (l : List α) (pn : Option Nat) :
    listViewPage per l pn = none
    ∨ ∃ m, listViewPage per l pn = some ((l.drop m).take per) := by
  unfold listViewPage
  dsimp only
  split
  · exact Or.inl rfl
  · exact Or.inr ⟨_, rfl⟩

theorem map_getPage (f : α → β) (per : Nat) (l : List α) (pn : Option Nat) :
    (getPage per l pn).map f = getPage per (l.map f) pn := by
  unfold getPage
  rw [List.map_take, List.map_drop, List.length_map]

/-- A published sample category. -/
def sampleCat : Category := ⟨1, "news", true⟩

/-- A sample post whose `is_published` flag is off, authored by user 1. -/
def draftPost : Post := ⟨1, 1, sampleCat, 0, 0, false, "draft"⟩

/-- A sample database holding only the unpublished post. -/
def draftDB : DB := ⟨[draftPost], [], [sampleCat]⟩

/-- A sample ordering key standing in for `Post._meta.ordering`. -/
def samplePubDateKey : Post → Int := fun p => p.pub_date

/-- C4 counterexample: not every one of the four page views obtains its
post data from the query builder — at `draftDB` the detail view hands the
author their unpublished post even though the query builder's output over
the whole post table is empty, so the detail view's data cannot come from
`get_annotated_posts` (and a single object is served with no pagination). -/
theorem post_detail_bypasses_query_builder :
    postDetailGetObject draftDB (some 1) 0 1 = some draftPost
    ∧ get_annotated_posts draftDB.comments samplePubDateKey 0 true
        draftDB.posts = [] := by
  constructor <;> rfl

/-- C4 amended: the list, category and profile views obtain their post
data by calling the query builder and paginate it (every delivered page is
a contiguous at-most-10 slice of the corresponding `get_annotated_posts`
output), while the detail view serves the single stored post fetched by
primary key without the query builder or pagination. -/
theorem three_page_views_paginate_query_builder (db : DB)
    (ordKey : Post → Int) (now : Int) (pn : Option Nat) (slug : String)
    (owner : Nat) (viewer viewerD : Option Nat) (pid : Nat) :
    (∀ page, postsListView db ordKey now pn = some page →
        ∃ m, page
          = ((get_annotated_posts db.comments ordKey now true db.posts).drop
              m).take 10)
    ∧ (∀ page, category_posts db ordKey now slug pn = some page →
        ∃ cat, db.categories.find?
            (fun x => x.slug == slug && x.is_published) = some cat
          ∧ ∃ m, page
            = ((get_annotated_posts db.comments ordKey now true
                (db.posts.filter (fun p => p.category.id == cat.id))).drop
                m).take 10)
    ∧ (∃ m, profilePageObj db ordKey now owner viewer pn
        = ((profilePosts db ordKey now owner viewer).drop m).take 10)
    ∧ (∀ p, postDetailGetObject db viewerD now pid = some p →
        findPost db pid = some p) := by
  refine ⟨?_, ?_, ?_, ?_⟩
  · intro page h
    unfold postsListView at h
    rcases listViewPage_shape 10
        (get_annotated_posts db.comments ordKey now true db.posts) pn with
      hs | ⟨m, hs⟩
    · rw [hs] at h
      exact absurd h (by simp)
    · rw [hs] at h
      exact ⟨m, (Option.some.inj h).symm⟩
  · intro page h
    unfold category_posts at h
    split at h
    · exact absurd h (by simp)
    · next cat hcat =>
      refine ⟨cat, hcat, ?_⟩
      obtain rfl := Option.some_injective _ h.symm
      exact getPage_eq_drop_take 10 _ pn
  · exact getPage_eq_drop_take 10 _ pn
  · intro p h
    unfold postDetailGetObject at h
    split at h
    · exact absurd h (by simp)
    · next post hpost =>
      rw [hpost]
      split at h
      · rw [Option.some_injective _ h]
      · split at h
        · rw [Option.some_injective _ h]
        · exact absurd h (by simp)

/-- C7: when the stored post exists, the detail view returns it to its
author regardless of publication state, and returns a 404 (no post data)
to any other viewer whenever the post fails the visibility condition. -/
theorem post_detail_author_or_published (db : DB) (viewer : Option Nat)
    (now : Int) (pid : Nat) (p : Post)
    (hfind : findPost db pid = some p) :
    (viewer = some p.author → postDetailGetObject db viewer now pid = some p)
    ∧ (viewer ≠ some p.author → detailVisible now p = false →
        postDetailGetObject db viewer now pid = none) := by
  constructor
  · intro h
    unfold postDetailGetObject
    rw [hfind]
    show (if viewer = some p.author then some p
      else if detailVisible now p = true then some p else none) = some p
    rw [if_pos h]
  · intro h hv
    unfold postDetailGetObject
    rw [hfind]
    show (if viewer = some p.author then some p
      else if detailVisible now p = true then some p else none) = none
    rw [if_neg h, if_neg (by simp [hv])]

/-- C8: for a viewer who is not the profile owner (including anonymous
viewers) the posts shown on the profile page are a function of the owner's
published posts alone — two database states agreeing on those produce the
same page of posts, so unpublished posts are never revealed — while the
authenticated owner's own profile queryset contains every one of their
posts. -/
theorem profile_hides_unpublished (ordKey : Post → Int) (now : Int)
    (owner : Nat) (viewer : Option Nat) (pn : Option Nat) (db1 db2 db : DB)
    (hv : viewer ≠ some owner)
    (hagree : db1.posts.filter
        (fun p => p.author == owner && publishedFilter now p)
      = db2.posts.filter
        (fun p => p.author == owner && publishedFilter now p)) :
    (profilePageObj db1 ordKey now owner viewer pn).map AnnotatedPost.post
      = (profilePageObj db2 ordKey now owner viewer pn).map AnnotatedPost.post
    ∧ ((profilePosts db ordKey now owner (some owner)).map
        AnnotatedPost.post).Perm
        (db.posts.filter (fun p => p.author == owner)) := by
  have hcomm : ∀ dbx : DB,
      (dbx.posts.filter (fun p => p.author == owner)).filter
          (publishedFilter now)
        = dbx.posts.filter
          (fun p => p.author == owner && publishedFilter now p) := by
    intro dbx
    rw [List.filter_filter]
    congr 1
    funext a
    exact Bool.and_comm _ _
  have h1 : ∀ dbx : DB,
      (profilePosts dbx ordKey now owner viewer).map AnnotatedPost.post
        = List.insertionSort (fun p q => ordKey p ≤ ordKey q)
            (dbx.posts.filter
              (fun p => p.author == owner && publishedFilter now p)) := by
    intro dbx
    unfold profilePosts
    rw [if_neg hv, get_annotated_posts_map_post, if_pos rfl, hcomm]
  constructor
  · unfold profilePageObj
    rw [map_getPage, map_getPage, h1, h1, hagree]
  · unfold profilePosts
    rw [if_pos rfl, get_annotated_posts_map_post]
    exact List.perm_insertionSort _ _

/-- C2: in every update or delete view for posts and comments, a requester
who is not the resource's author (including an anonymous requester) leaves
the database unchanged — the mutation is performed only for the author. -/
theorem author_only_mutation (db : DB) (viewer : Option Nat) (pid cid : Nat)
    (fv : Bool) (g : Post → Post) (gc : Comment → Comment)
    (kpid : Option Nat) :
    (∀ p, findPost db pid = some p → viewer ≠ some p.author →
        (postUpdateView db viewer pid fv g).1 = db)
    ∧ (∀ p, findPost db pid = some p → viewer ≠ some p.author →
        (postDeleteView db viewer pid).1 = db)
    ∧ (∀ c, findComment db cid = some c → viewer ≠ some c.author →
        (commentUpdateView db viewer cid fv gc).1 = db)
    ∧ (∀ c, findComment db cid = some c → viewer ≠ some c.author →
        (commentDeleteView db viewer cid kpid).1 = db) := by
  have hne : ∀ (u a : Nat), some u ≠ some a → editMixinTest u a = false := by
    intro u a h
    simp only [editMixinTest, beq_eq_false_iff_ne, ne_eq]
    intro heq
    exact h (by rw [heq])
  refine ⟨?_, ?_, ?_, ?_⟩
  · intro p hp hne'
    cases viewer with
    | none => rfl
    | some u =>
      unfold postUpdateView
      rw [hp]
      dsimp only
      rw [hne u p.author hne']
      rfl
  · intro p hp hne'
    cases viewer with
    | none => rfl
    | some u =>
      unfold postDeleteView
      rw [hp]
      dsimp only
      rw [hne u p.author hne']
      rfl
  · intro c hc hne'
    cases viewer with
    | none => rfl
    | some u =>
      unfold commentUpdateView
      rw [hc]
      dsimp only
      have hdeny : commentUpdateDenies u c.author = true := by
        simp only [commentUpdateDenies, bne_iff_ne, ne_eq]
        intro heq
        exact hne' (by rw [heq])
      rw [hdeny]
      rfl
  · intro c hc hne'
    cases viewer with
    | none => rfl
    | some u =>
      unfold commentDeleteView
      rw [hc]
      dsimp only
      rw [hne u c.author hne']
      rfl

/-- C5: the authorship check of every update and delete view decides
permission as exactly "the current viewer equals the resource's author":
`EditMixin.test_func` (used verbatim by the post update, post delete and
comment delete views) is that predicate, `CommentUpdateView`'s own
dispatch denial is its exact negation, and the comment update view
responds with the permission failure precisely when the shared test
fails. -/
theorem shared_permission_test (u a : Nat) :
    (editMixinTest u a = true ↔ u = a)
    ∧ (commentUpdateDenies u a = false ↔ editMixinTest u a = true)
    ∧ (∀ db cid fv gc c, findComment db cid = some c →
        ((commentUpdateView db (some u) cid fv gc).2 = Response.forbidden
          ↔ editMixinTest u c.author = false)) := by
  refine ⟨?_, ?_, ?_⟩
  · simp [editMixinTest]
  · simp only [commentUpdateDenies, editMixinTest, bne_eq_false_iff_eq,
      beq_iff_eq]
    exact ⟨fun h => h.symm, fun h => h.symm⟩
  · intro db cid fv gc c hc
    unfold commentUpdateView
    rw [hc]
    dsimp only
    by_cases hd : commentUpdateDenies u c.author = true
    · rw [if_pos hd]
      constructor
      · intro _
        simp only [commentUpdateDenies, bne_iff_ne, ne_eq] at hd
        simp only [editMixinTest, beq_eq_false_iff_ne, ne_eq]
        intro heq
        exact hd (by rw [heq])
      · intro _
        rfl
    · rw [if_neg hd]
      have ht : editMixinTest u c.author = true := by
        simp only [commentUpdateDenies, bne_iff_ne, ne_eq, not_not] at hd
        simp [editMixinTest, hd]
      rw [ht]
      constructor
      · intro hresp
        by_cases hfv : fv = true
        · rw [if_pos hfv] at hresp
          exact absurd hresp (by simp)
        · rw [if_neg hfv] at hresp
          exact absurd hresp (by simp)
      · intro hfalse
        exact absurd hfalse (by simp)

/-- C6: whenever any of the six mutation handlers (post create, update,
delete; comment create, update, delete) actually changes the stored state,
its response is a redirect. -/
theorem mutation_implies_redirect (db : DB) (viewer : Option Nat)
    (now : Int) (pid cid ncid : Nat) (fv pds : Bool) (inst : Post)
    (g : Post → Post) (gc : Comment → Comment) (kpid : Option Nat)
    (text : String) :
    ((postCreateView db viewer now fv inst pds).1 ≠ db →
        (postCreateView db viewer now fv inst pds).2.isRedirect = true)
    ∧ ((postUpdateView db viewer pid fv g).1 ≠ db →
        (postUpdateView db viewer pid fv g).2.isRedirect = true)
    ∧ ((postDeleteView db viewer pid).1 ≠ db →
        (postDeleteView db viewer pid).2.isRedirect = true)
    ∧ ((add_comment db viewer pid fv ncid text).1 ≠ db →
        (add_comment db viewer pid fv ncid text).2.isRedirect = true)
    ∧ ((commentUpdateView db viewer cid fv gc).1 ≠ db →
        (commentUpdateView db viewer cid fv gc).2.isRedirect = true)
    ∧ ((commentDeleteView db viewer cid kpid).1 ≠ db →
        (commentDeleteView db viewer cid kpid).2.isRedirect = true) := by
  refine ⟨?_, ?_, ?_, ?_, ?_, ?_⟩ <;> intro h
  · cases viewer with
    | none => rfl
    | some u =>
      unfold postCreateView at h ⊢
      dsimp only at h ⊢
      by_cases hfv : fv = true
      · rw [if_pos hfv]
        rfl
      · rw [if_neg hfv] at h
        exact absurd rfl h
  · cases viewer with
    | none => rfl
    | some u =>
      unfold postUpdateView at h ⊢
      dsimp only at h ⊢
      cases hfp : findPost db pid with
      | none =>
        rw [hfp] at h
        exact absurd rfl h
      | some p =>
        rw [hfp] at h
        dsimp only at h ⊢
        by_cases ht : editMixinTest u p.author = true
        · rw [if_pos ht] at h ⊢
          by_cases hfv : fv = true
          · rw [if_pos hfv]
            rfl
          · rw [if_neg hfv] at h
            exact absurd rfl h
        · rw [if_neg ht]
          rfl
  · cases viewer with
    | none => rfl
    | some u =>
      unfold postDeleteView at h ⊢
      dsimp only at h ⊢
      cases hfp : findPost db pid with
      | none =>
        rw [hfp] at h
        exact absurd rfl h
      | some p =>
        rw [hfp] at h
        dsimp only at h ⊢
        by_cases ht : editMixinTest u p.author = true
        · rw [if_pos ht]
          rfl
        · rw [if_neg ht]
          rfl
  · cases viewer with
    | none => rfl
    | some u =>
      unfold add_comment at h ⊢
      dsimp only at h ⊢
      cases hfp : findPost db pid with
      | none =>
        rw [hfp] at h
        exact absurd rfl h
      | some p =>
        rw [hfp] at h
        dsimp only at h ⊢
        by_cases hfv : fv = true
        · rw [if_pos hfv]
          rfl
        · rw [if_neg hfv]
          rfl
  · cases viewer with
    | none => rfl
    | some u =>
      unfold commentUpdateView at h ⊢
      dsimp only at h ⊢
      cases hfc : findComment db cid with
      | none =>
        rw [hfc] at h
        exact absurd rfl h
      | some c =>
        rw [hfc] at h
        dsimp only at h ⊢
        by_cases hd : commentUpdateDenies u c.author = true
        · rw [if_pos hd] at h
          exact absurd rfl h
        · rw [if_neg hd] at h ⊢
          by_cases hfv : fv = true
          · rw [if_pos hfv]
            rfl
          · rw [if_neg hfv] at h
            exact absurd rfl h
  · cases viewer with
    | none =>
      unfold commentDeleteView at h
      dsimp only at h
      exact absurd rfl h
    | some u =>
      unfold commentDeleteView at h ⊢
      dsimp only at h ⊢
      cases hfc : findComment db cid with
      | none =>
        rw [hfc] at h
        exact absurd rfl h
      | some c =>
        rw [hfc] at h
        dsimp only at h ⊢
        by_cases ht : editMixinTest u c.author = true
        · rw [if_pos ht]
          rfl
        · rw [if_neg ht] at h
          exact absurd rfl h

/-- C9: for an authenticated comment submission on an existing post,
`add_comment` always redirects to that post's detail page; a valid form
appends exactly one comment authored by the requester and attached to the
target post, and an invalid form leaves the stored state unchanged. -/
theorem add_comment_spec (db : DB) (u : Nat) (pid : Nat) (fv : Bool)
    (cid : Nat) (text : String) (p : Post)
    (hfind : findPost db pid = some p) :
    (add_comment db (some u) pid fv cid text).2
      = Response.redirect (Url.postDetail pid)
    ∧ (fv = true → (add_comment db (some u) pid fv cid text).1
        = { db with comments := db.comments ++ [⟨cid, u, pid, text⟩] })
    ∧ (fv = false → (add_comment db (some u) pid fv cid text).1 = db) := by
  unfold add_comment
  rw [hfind]
  dsimp only
  refine ⟨?_, ?_, ?_⟩
  · by_cases hfv : fv = true
    · rw [if_pos hfv]
    · rw [if_neg hfv]
  · intro hfv
    rw [if_pos hfv]
  · intro hfv
    rw [if_neg (by simp [hfv])]

/-- C10: the page of posts delivered to the template by the list view, the
category view and the profile view always holds at most 10 posts. -/
theorem pages_hold_at_most_ten (db : DB) (ordKey : Post → Int) (now : Int)
    (pn : Option Nat) (slug : String) (owner : Nat) (viewer : Option Nat) :
    (∀ page, postsListView db ordKey now pn = some page → page.length ≤ 10)
    ∧ (∀ page, category_posts db ordKey now slug pn = some page →
        page.length ≤ 10)
    ∧ (profilePageObj db ordKey now owner viewer pn).length ≤ 10 := by
  refine ⟨?_, ?_, ?_⟩
  · intro page h
    unfold postsListView at h
    rcases listViewPage_shape 10
        (get_annotated_posts db.comments ordKey now true db.posts) pn with
      hs | ⟨m, hs⟩
    · rw [hs] at h
      exact absurd h (by simp)
    · rw [hs] at h
      obtain rfl := (Option.some.inj h).symm
      rw [List.length_take]
      exact min_le_left _ _
  · intro page h
    unfold category_posts at h
    split at h
    · exact absurd h (by simp)
    · obtain rfl := (Option.some.inj h).symm
      exact length_getPage 10 _ pn
  · exact length_getPage 10 _ pn

/-! ### Witnesses -/

/-- A published sample post, authored by user 1, with one comment. -/
def pubPost : Post := ⟨2, 1, sampleCat, 0, 0, true, "hello"⟩

/-- A sample comment by user 2 on `pubPost`. -/
def sampleComment : Comment := ⟨1, 2, 2, "hi"⟩

/-- A sample database: one unpublished and one published post by user 1,
one comment by user 2. -/
def sampleDB : DB := ⟨[draftPost, pubPost], [sampleComment], [sampleCat]⟩

/-- A database agreeing with `sampleDB` on user 1's published posts but
holding neither the draft nor the comment. -/
def prunedDB : DB := ⟨[pubPost], [], [sampleCat]⟩

/-- A sample form effect on a post: replace the text. -/
def editPostText : Post → Post := fun p => { p with text := "edited" }

/-- A sample form effect on a comment: replace the text. -/
def editCommentText : Comment → Comment := fun c => { c with text := "edited" }

/-- Witness for C3 at a concrete database: the query builder's output over
`sampleDB` is exactly the published posts when filtering and all posts
otherwise. -/
theorem get_annotated_posts_spec_witness :
    ((get_annotated_posts sampleDB.comments samplePubDateKey 0 true
        sampleDB.posts).map AnnotatedPost.post).Perm
      (sampleDB.posts.filter (publishedFilter 0))
    ∧ ((get_annotated_posts sampleDB.comments samplePubDateKey 0 false
        sampleDB.posts).map AnnotatedPost.post).Perm sampleDB.posts :=
  ⟨(get_annotated_posts_spec sampleDB.comments samplePubDateKey 0 true
      sampleDB.posts).2.2.1 rfl,
    (get_annotated_posts_spec sampleDB.comments samplePubDateKey 0 false
      sampleDB.posts).2.2.2 rfl⟩

/-- Witness for the amended C4 at a concrete database: each of the three
multi-post pages is a 10-slice of the query builder's output and the
detail view serves the stored post. -/
theorem three_page_views_paginate_query_builder_witness :
    (∃ m, [(⟨pubPost, 1⟩ : AnnotatedPost)]
      = ((get_annotated_posts sampleDB.comments samplePubDateKey 0 true
          sampleDB.posts).drop m).take 10)
    ∧ (∃ cat, sampleDB.categories.find?
          (fun x => x.slug == "news" && x.is_published) = some cat
        ∧ ∃ m, [(⟨pubPost, 1⟩ : AnnotatedPost)]
          = ((get_annotated_posts sampleDB.comments samplePubDateKey 0 true
              (sampleDB.posts.filter
                (fun p => p.category.id == cat.id))).drop m).take 10)
    ∧ (∃ m, profilePageObj sampleDB samplePubDateKey 0 1 none none
        = ((profilePosts sampleDB samplePubDateKey 0 1 none).drop m).take 10)
    ∧ findPost sampleDB 1 = some draftPost :=
  ⟨(three_page_views_paginate_query_builder sampleDB samplePubDateKey 0 none
      "news" 1 none (some 1) 1).1 [⟨pubPost, 1⟩] rfl,
    (three_page_views_paginate_query_builder sampleDB samplePubDateKey 0 none
      "news" 1 none (some 1) 1).2.1 [⟨pubPost, 1⟩] rfl,
    (three_page_views_paginate_query_builder sampleDB samplePubDateKey 0 none
      "news" 1 none (some 1) 1).2.2.1,
    (three_page_views_paginate_query_builder sampleDB samplePubDateKey 0 none
      "news" 1 none (some 1) 1).2.2.2 draftPost rfl⟩

/-- Witness for C7 at a concrete database: the author receives their
unpublished post, a different user receives a 404. -/
theorem post_detail_author_or_published_witness :
    postDetailGetObject sampleDB (some 1) 0 1 = some draftPost
    ∧ postDetailGetObject sampleDB (some 2) 0 1 = none :=
  ⟨(post_detail_author_or_published sampleDB (some 1) 0 1 draftPost rfl).1
      rfl,
    (post_detail_author_or_published sampleDB (some 2) 0 1 draftPost rfl).2
      (by decide) rfl⟩

/-- Witness for C8 at concrete databases: `sampleDB` and `prunedDB` agree
on user 1's published posts, so an anonymous visitor sees the same profile
posts on both, and the owner's own queryset covers all their posts. -/
theorem profile_hides_unpublished_witness :
    (profilePageObj sampleDB samplePubDateKey 0 1 none none).map
        AnnotatedPost.post
      = (profilePageObj prunedDB samplePubDateKey 0 1 none none).map
        AnnotatedPost.post
    ∧ ((profilePosts sampleDB samplePubDateKey 0 1 (some 1)).map
        AnnotatedPost.post).Perm
        (sampleDB.posts.filter (fun p => p.author == 1)) :=
  profile_hides_unpublished samplePubDateKey 0 1 none none sampleDB prunedDB
    sampleDB (by decide) rfl

/-- Witness for C2 at a concrete database: a non-author's update and
delete attempts on the post and on the comment all leave the database
unchanged. -/
theorem author_only_mutation_witness :
    (postUpdateView sampleDB (some 2) 1 true editPostText).1 = sampleDB
    ∧ (postDeleteView sampleDB (some 2) 1).1 = sampleDB
    ∧ (commentUpdateView sampleDB (some 1) 1 true editCommentText).1
      = sampleDB
    ∧ (commentDeleteView sampleDB (some 1) 1 (some 2)).1 = sampleDB :=
  ⟨(author_only_mutation sampleDB (some 2) 1 1 true editPostText
      editCommentText (some 2)).1 draftPost rfl (by decide),
    (author_only_mutation sampleDB (some 2) 1 1 true editPostText
      editCommentText (some 2)).2.1 draftPost rfl (by decide),
    (author_only_mutation sampleDB (some 1) 1 1 true editPostText
      editCommentText (some 2)).2.2.1 sampleComment rfl (by decide),
    (author_only_mutation sampleDB (some 1) 1 1 true editPostText
      editCommentText (some 2)).2.2.2 sampleComment rfl (by decide)⟩

/-- Witness for C5 at a concrete database: the comment update view's
permission failure response coincides with the failure of the shared
test. -/
theorem shared_permission_test_witness :
    (editMixinTest 1 1 = true ↔ (1 : Nat) = 1)
    ∧ ((commentUpdateView sampleDB (some 1) 1 true editCommentText).2
        = Response.forbidden
      ↔ editMixinTest 1 sampleComment.author = false) :=
  ⟨(shared_permission_test 1 1).1,
    (shared_permission_test 1 1).2.2 sampleDB 1 true editCommentText
      sampleComment rfl⟩

/-- Witness for C6 at a concrete database: a performed create, update and
delete of a post and of a comment each answer with a redirect. -/
theorem mutation_implies_redirect_witness :
    (postCreateView sampleDB (some 1) 0 true draftPost true).2.isRedirect
      = true
    ∧ (postUpdateView sampleDB (some 1) 1 true editPostText).2.isRedirect
      = true
    ∧ (postDeleteView sampleDB (some 1) 1).2.isRedirect = true
    ∧ (add_comment sampleDB (some 1) 2 true 9 "yo").2.isRedirect = true
    ∧ (commentUpdateView sampleDB (some 2) 1 true
        editCommentText).2.isRedirect = true
    ∧ (commentDeleteView sampleDB (some 2) 1 (some 2)).2.isRedirect
      = true :=
  ⟨(mutation_implies_redirect sampleDB (some 1) 0 1 1 9 true true draftPost
      editPostText editCommentText (some 2) "yo").1 (by decide),
    (mutation_implies_redirect sampleDB (some 1) 0 1 1 9 true true draftPost
      editPostText editCommentText (some 2) "yo").2.1 (by decide),
    (mutation_implies_redirect sampleDB (some 1) 0 1 1 9 true true draftPost
      editPostText editCommentText (some 2) "yo").2.2.1 (by decide),
    (mutation_implies_redirect sampleDB (some 1) 0 1 1 9 true true draftPost
      editPostText editCommentText (some 2) "yo").2.2.2.1 (by decide),
    (mutation_implies_redirect sampleDB (some 2) 0 1 1 9 true true draftPost
      editPostText editCommentText (some 2) "yo").2.2.2.2.1 (by decide),
    (mutation_implies_redirect sampleDB (some 2) 0 1 1 9 true true draftPost
      editPostText editCommentText (some 2) "yo").2.2.2.2.2 (by decide)⟩

/-- Witness for C9 at a concrete database: a valid submission appends the
comment and redirects; an invalid one changes nothing and still
redirects. -/
theorem add_comment_spec_witness :
    (add_comment sampleDB (some 1) 2 true 9 "yo").2
      = Response.redirect (Url.postDetail 2)
    ∧ (add_comment sampleDB (some 1) 2 true 9 "yo").1
      = { sampleDB with
          comments := sampleDB.comments ++ [⟨9, 1, 2, "yo"⟩] }
    ∧ (add_comment sampleDB (some 1) 2 false 9 "yo").1 = sampleDB :=
  ⟨(add_comment_spec sampleDB 1 2 true 9 "yo" pubPost rfl).1,
    (add_comment_spec sampleDB 1 2 true 9 "yo" pubPost rfl).2.1 rfl,
    (add_comment_spec sampleDB 1 2 false 9 "yo" pubPost rfl).2.2 rfl⟩

/-- Witness for C10 at a concrete database: the delivered list, category
and profile pages each hold at most 10 posts. -/
theorem pages_hold_at_most_ten_witness :
    ([(⟨pubPost, 1⟩ : AnnotatedPost)].length ≤ 10)
    ∧ ([(⟨pubPost, 1⟩ : AnnotatedPost)].length ≤ 10)
    ∧ (profilePageObj sampleDB samplePubDateKey 0 1 none none).length
      ≤ 10 :=
  ⟨(pages_hold_at_most_ten sampleDB samplePubDateKey 0 none "news" 1
      none).1 [⟨pubPost, 1⟩] rfl,
    (pages_hold_at_most_ten sampleDB samplePubDateKey 0 none "news" 1
      none).2.1 [⟨pubPost, 1⟩] rfl,
    (pages_hold_at_most_ten sampleDB samplePubDateKey 0 none "news" 1
      none).2.2⟩

/-- C8 counterexample: two databases that agree on user 1's published
posts need not produce identical profile pages for a non-owner viewer —
`sampleDB` and `prunedDB` agree on those posts, yet the delivered pages
differ because the `comment_count` annotation reflects the differing
comment stores (the underlying posts shown are nevertheless the same,
which is the amended statement). -/
theorem profile_page_annotations_differ :
    sampleDB.posts.filter (fun p => p.author == 1 && publishedFilter 0 p)
      = prunedDB.posts.filter (fun p => p.author == 1 && publishedFilter 0 p)
    ∧ profilePageObj sampleDB samplePubDateKey 0 1 none none
      ≠ profilePageObj prunedDB samplePubDateKey 0 1 none none := by
  constructor
  · rfl
  · decide
